/-
  Verification of the dom-analyzer repository against its specification.

  Shallow embedding of the analyzers in `src/core_analyzer.py` and
  `src/comprehensive_analyzer.py`.  Python dicts are embedded as association
  lists (`List (String × _)`), Python sets as lists with membership-checked
  insertion (which preserves exactly the operations the code performs:
  `in`, `add`, `len`), and floating-point arithmetic as exact rational
  arithmetic (all scores in the code are dyadic/short decimal values on
  which Python float arithmetic is exact).
-/
import Mathlib

namespace DomAnalyzer

/-! ### Security headers — `CoreDOMAnalyzer.analyze_security_headers`
    (src/core_analyzer.py lines 610–676) -/

/-- The `important_headers` table: canonical header name paired with its
`score` weight, in source order. -/
def importantHeaders : List (String × Nat) :=
  [("Strict-Transport-Security", 10),
   ("X-Frame-Options", 10),
   ("X-Content-Type-Options", 10),
   ("Content-Security-Policy", 15),
   ("X-XSS-Protection", 5),
   ("Referrer-Policy", 5),
   ("Permissions-Policy", 10),
   ("Cross-Origin-Embedder-Policy", 5),
   ("Cross-Origin-Opener-Policy", 5),
   ("Cross-Origin-Resource-Policy", 5)]

/-- Python `header in response_headers`: key membership in the response-header
mapping (case-sensitive, exactly as the dict lookup in the source). -/
def headerPresent (responseHeaders : List (String × String)) (name : String) : Bool :=
  responseHeaders.any (fun kv => kv.1 == name)

/-- `total_possible_score = sum(h['score'] for h in important_headers.values())`. -/
def totalPossibleScore : Nat := (importantHeaders.map Prod.snd).sum

/-- The `actual_score` accumulation loop:
`for header, info in important_headers.items(): if header in response_headers: actual_score += info['score']`. -/
def actualScore (responseHeaders : List (String × String)) : Nat :=
  importantHeaders.foldl
    (fun acc h => if headerPresent responseHeaders h.1 then acc + h.2 else acc) 0

/-- `security['security_score'] = (actual_score / total_possible_score) * 100 if total_possible_score > 0 else 0`.
Python float arithmetic embedded as exact rational arithmetic: every
`actual_score` is a multiple of 5, so `actual_score / 80` is a dyadic
rational `k/16` and the float computation is exact. -/
def securityScore (responseHeaders : List (String × String)) : ℚ :=
  if totalPossibleScore > 0 then
    (actualScore responseHeaders : ℚ) / (totalPossibleScore : ℚ) * 100
  else 0

/-! Generic lemmas about the accumulation fold. -/

theorem foldl_weight_eq (P : String → Bool) :
    ∀ (l : List (String × Nat)) (a : Nat),
      l.foldl (fun acc h => if P h.1 then acc + h.2 else acc) a
        = a + ((l.filter (fun h => P h.1)).map Prod.snd).sum := by
  intro l
  induction l with
  | nil => intro a; simp
  | cons x xs ih =>
      intro a
      by_cases hx : P x.1 <;> simp [hx, ih] <;> omega

theorem filter_weight_le (P : String → Bool) (l : List (String × Nat)) :
    ((l.filter (fun h => P h.1)).map Prod.snd).sum ≤ (l.map Prod.snd).sum := by
  induction l with
  | nil => simp
  | cons x xs ih =>
      by_cases hx : P x.1 <;> simp [hx] <;> try omega

theorem filter_weight_eq_total_iff (P : String → Bool) :
    ∀ (l : List (String × Nat)), (∀ h ∈ l, 0 < h.2) →
      (((l.filter (fun h => P h.1)).map Prod.snd).sum = (l.map Prod.snd).sum
        ↔ ∀ h ∈ l, P h.1 = true) := by
  intro l
  induction l with
  | nil => intro _; simp
  | cons x xs ih =>
      intro hpos
      have hxpos : 0 < x.2 := hpos x (by simp)
      have hxs : ∀ h ∈ xs, 0 < h.2 := fun h hm => hpos h (by simp [hm])
      by_cases hx : P x.1
      · simp only [List.filter_cons, hx, if_true, List.map_cons, List.sum_cons]
        constructor
        · intro heq
          have : ((xs.filter (fun h => P h.1)).map Prod.snd).sum = (xs.map Prod.snd).sum := by
            omega
          intro h hm
          rcases List.mem_cons.mp hm with rfl | hm'
          · exact hx
          · exact ((ih hxs).mp this) h hm'
        · intro hall
          have : ((xs.filter (fun h => P h.1)).map Prod.snd).sum = (xs.map Prod.snd).sum :=
            (ih hxs).mpr (fun h hm => hall h (by simp [hm]))
          omega
      · have hx' : P x.1 = false := by
          cases hpx : P x.1
          · rfl
          · exact absurd hpx hx
        simp only [List.filter_cons, hx', Bool.false_eq_true, if_false, List.map_cons,
          List.sum_cons]
        have hle := filter_weight_le P xs
        constructor
        · intro heq; omega
        · intro hall
          exact absurd (hall x (by simp)) (by simp [hx'])

theorem filter_weight_eq_zero_iff (P : String → Bool) :
    ∀ (l : List (String × Nat)), (∀ h ∈ l, 0 < h.2) →
      (((l.filter (fun h => P h.1)).map Prod.snd).sum = 0
        ↔ ∀ h ∈ l, P h.1 = false) := by
  intro l
  induction l with
  | nil => intro _; simp
  | cons x xs ih =>
      intro hpos
      have hxpos : 0 < x.2 := hpos x (by simp)
      have hxs : ∀ h ∈ xs, 0 < h.2 := fun h hm => hpos h (by simp [hm])
      by_cases hx : P x.1
      · simp only [List.filter_cons, hx, if_true, List.map_cons, List.sum_cons]
        constructor
        · intro heq; omega
        · intro hall
          exact absurd (hall x (by simp)) (by simp [hx])
      · have hx' : P x.1 = false := by
          cases hpx : P x.1
          · rfl
          · exact absurd hpx hx
        simp only [List.filter_cons, hx', Bool.false_eq_true, if_false]
        constructor
        · intro heq
          intro h hm
          rcases List.mem_cons.mp hm with rfl | hm'
          · exact hx'
          · exact ((ih hxs).mp heq) h hm'
        · intro hall
          exact (ih hxs).mpr (fun h hm => hall h (by simp [hm]))

theorem importantHeaders_pos : ∀ h ∈ importantHeaders, 0 < h.2 := by decide

theorem totalPossibleScore_eq : totalPossibleScore = 80 := by decide

theorem actualScore_eq (rh : List (String × String)) :
    actualScore rh
      = ((importantHeaders.filter (fun h => headerPresent rh h.1)).map Prod.snd).sum := by
  simpa using foldl_weight_eq (headerPresent rh) importantHeaders 0

theorem actualScore_le (rh : List (String × String)) : actualScore rh ≤ 80 := by
  rw [actualScore_eq]
  have := filter_weight_le (headerPresent rh) importantHeaders
  have h80 : (importantHeaders.map Prod.snd).sum = 80 := by decide
  omega

/-- C1: For every response-header mapping, the security score lies in
[0, 100]; it is 100 iff all 10 weighted headers are present, and 0 iff
none of them is present. -/
theorem security_score_bounds_and_extremes (rh : List (String × String)) :
    0 ≤ securityScore rh ∧ securityScore rh ≤ 100 ∧
    (securityScore rh = 100 ↔ ∀ h ∈ importantHeaders, headerPresent rh h.1 = true) ∧
    (securityScore rh = 0 ↔ ∀ h ∈ importantHeaders, headerPresent rh h.1 = false) := by
  have htot : totalPossibleScore = 80 := totalPossibleScore_eq
  have hscore : securityScore rh = (actualScore rh : ℚ) / 80 * 100 := by
    simp [securityScore, htot]
  have hle : actualScore rh ≤ 80 := actualScore_le rh
  refine ⟨?_, ?_, ?_, ?_⟩
  · rw [hscore]; positivity
  · rw [hscore]
    have : (actualScore rh : ℚ) ≤ 80 := by exact_mod_cast hle
    have h1 : (actualScore rh : ℚ) / 80 ≤ 1 := by
      rw [div_le_one (by norm_num)]; exact this
    nlinarith
  · rw [hscore]
    have hiff : (actualScore rh : ℚ) / 80 * 100 = 100 ↔ actualScore rh = 80 := by
      rw [div_mul_eq_mul_div, div_eq_iff (by norm_num : (80 : ℚ) ≠ 0)]
      constructor
      · intro h
        have : (actualScore rh : ℚ) = 80 := by nlinarith
        exact_mod_cast this
      · intro h; rw [h]; norm_num
    rw [hiff, actualScore_eq]
    have h80 : (importantHeaders.map Prod.snd).sum = 80 := by decide
    rw [← h80]
    exact filter_weight_eq_total_iff (headerPresent rh) importantHeaders importantHeaders_pos
  · rw [hscore]
    have hiff : (actualScore rh : ℚ) / 80 * 100 = 0 ↔ actualScore rh = 0 := by
      constructor
      · intro h
        have h0 : (actualScore rh : ℚ) = 0 := by
          by_contra hne
          have hpos : (0 : ℚ) < (actualScore rh : ℚ) := by
            have : (0 : ℚ) ≤ (actualScore rh : ℚ) := by positivity
            rcases lt_or_eq_of_le this with h' | h'
            · exact h'
            · exact absurd h'.symm hne
          nlinarith
        exact_mod_cast h0
      · intro h; rw [h]; norm_num
    rw [hiff, actualScore_eq]
    exact filter_weight_eq_zero_iff (headerPresent rh) importantHeaders importantHeaders_pos

/-- C10: The security score depends only on which of the 10 canonical header
names occur as keys of the response-header mapping: two mappings agreeing on
the presence of each weighted header get the same score, regardless of header
values or of any other headers present. -/
theorem security_score_presence_only (m1 m2 : List (String × String))
    (hagree : ∀ h ∈ importantHeaders, headerPresent m1 h.1 = headerPresent m2 h.1) :
    securityScore m1 = securityScore m2 := by
  have hact : actualScore m1 = actualScore m2 := by
    rw [actualScore_eq, actualScore_eq]
    have : importantHeaders.filter (fun h => headerPresent m1 h.1)
        = importantHeaders.filter (fun h => headerPresent m2 h.1) := by
      apply List.filter_congr
      intro h hm
      exact hagree h hm
    rw [this]
  simp [securityScore, hact]

/-- Witness for C10 at concrete inputs: two different mappings with the same
presence pattern for the weighted headers (only `X-Frame-Options` present). -/
theorem security_score_presence_only_witness :
    securityScore [("X-Frame-Options", "DENY"), ("X-Powered-By", "PHP")]
      = securityScore [("X-Frame-Options", "SAMEORIGIN")] :=
  security_score_presence_only
    [("X-Frame-Options", "DENY"), ("X-Powered-By", "PHP")]
    [("X-Frame-Options", "SAMEORIGIN")]
    (by decide)

/-! ### DOM tree model and `CoreDOMAnalyzer.calculate_dom_complexity`
    (src/core_analyzer.py lines 120–136) -/

/-- A DOM element: tag name, attributes, children, in document order. -/
inductive Elem where
  | node (tag : String) (attrs : List (String × String)) (children : List Elem)

def Elem.tag : Elem → String
  | .node t _ _ => t

def Elem.attrs : Elem → List (String × String)
  | .node _ a _ => a

def Elem.children : Elem → List Elem
  | .node _ _ cs => cs

mutual

/-- BeautifulSoup `element.findChildren()`: all descendants of the element in
document order (each child followed by that child's own descendants). -/
def Elem.findChildren : Elem → List Elem
  | .node _ _ cs => findChildrenList cs

/-- Descendant collection of a sibling list, in document order. -/
def findChildrenList : List Elem → List Elem
  | [] => []
  | c :: cs => c :: (c.findChildren ++ findChildrenList cs)

end

mutual

/-- Node count of a subtree (the element itself plus all its descendants);
the termination measure for the depth recursion. -/
def Elem.size : Elem → Nat
  | .node _ _ cs => 1 + sizeList cs

def sizeList : List Elem → Nat
  | [] => 0
  | c :: cs => c.size + sizeList cs

end

mutual

theorem Elem.size_lt_of_mem_findChildren :
    ∀ (e : Elem) (d : Elem), d ∈ e.findChildren → d.size < e.size
  | .node t a cs, d, h => by
      have hle : d.size ≤ sizeList cs :=
        size_le_of_mem_findChildrenList cs d (by simpa [Elem.findChildren] using h)
      simp only [Elem.size]
      omega

theorem size_le_of_mem_findChildrenList :
    ∀ (cs : List Elem) (d : Elem), d ∈ findChildrenList cs → d.size ≤ sizeList cs
  | [], d, h => by simp [findChildrenList] at h
  | c :: cs', d, h => by
      simp only [findChildrenList, List.mem_cons, List.mem_append] at h
      rcases h with rfl | h | h
      · simp only [sizeList]; omega
      · have := Elem.size_lt_of_mem_findChildren c d h
        simp only [sizeList]; omega
      · have := size_le_of_mem_findChildrenList cs' d h
        simp only [sizeList]; omega

end

/-- `get_tree_depth(element, current_depth)` from `calculate_dom_complexity`:
returns `current_depth` when the element has no descendants, otherwise the
maximum of the recursive depths of all its descendants (BeautifulSoup's
`findChildren()` yields every descendant, not only direct children; the
maximum over that larger set coincides with Python's `max(...)` over it).
Python's `max` over the nonempty generator is embedded as a left fold of
`max` from 0 — identical here since every recursive value is a `Nat`. -/
def getTreeDepth (e : Elem) (cur : Nat) : Nat :=
  if e.findChildren.isEmpty then cur
  else (e.findChildren.attach.map (fun d => getTreeDepth d.1 (cur + 1))).foldl max 0
termination_by e.size
decreasing_by exact Elem.size_lt_of_mem_findChildren e d.1 d.2

/-- Unfolding equation for `getTreeDepth` with the `attach` bookkeeping of the
well-founded recursion removed. -/
theorem getTreeDepth_eval (e : Elem) (cur : Nat) :
    getTreeDepth e cur
      = if e.findChildren.isEmpty then cur
        else (e.findChildren.map (fun d => getTreeDepth d (cur + 1))).foldl max 0 := by
  rw [getTreeDepth]
  by_cases h : e.findChildren.isEmpty
  · simp [h]
  · simp only [h, if_false]
    rw [List.attach_map_val e.findChildren (fun d => getTreeDepth d (cur + 1))]

/-- A parsed document: its top-level nodes in document order. -/
structure Soup where
  roots : List Elem

/-- `soup.find_all()`: every element of the document, in document order. -/
def Soup.findAll (s : Soup) : List Elem := findChildrenList s.roots

/-- `soup.html`: the first element tagged `html` in document order, if any. -/
def Soup.htmlElem (s : Soup) : Option Elem :=
  (s.findAll.filter (fun e => e.tag == "html")).head?

/-- Result record of `calculate_dom_complexity` (the float field
`average_children_per_node` is embedded as an exact rational). -/
structure DomComplexity where
  total_elements : Nat
  max_depth : Nat
  average_children_per_node : ℚ
  leaf_nodes : Nat
  branch_nodes : Nat
  complexity_score : Nat

/-- `CoreDOMAnalyzer.calculate_dom_complexity`.  Note `max_depth` is
`get_tree_depth(soup.html) if soup.html else 0` while `complexity_score` is
`len(all_elements) * (get_tree_depth(soup.html) if soup.html else 1)`: the
fallback constant differs (0 versus 1) and the score's factor is the raw
depth — not the depth floored to 1 — whenever an `html` element exists. -/
def calculate_dom_complexity (s : Soup) : DomComplexity :=
  let allElements := s.findAll
  { total_elements := allElements.length
    max_depth :=
      match s.htmlElem with
      | some h => getTreeDepth h 0
      | none => 0
    average_children_per_node :=
      if allElements.length = 0 then 0
      else ((allElements.map (fun e => e.findChildren.length)).sum : ℚ) / allElements.length
    leaf_nodes := (allElements.filter (fun e => e.findChildren.isEmpty)).length
    branch_nodes := (allElements.filter (fun e => !e.findChildren.isEmpty)).length
    complexity_score :=
      allElements.length *
        (match s.htmlElem with
         | some h => getTreeDepth h 0
         | none => 1) }

/-- The document `<html></html>`: a single `html` element with no children. -/
def bareHtmlSoup : Soup := ⟨[Elem.node "html" [] []]⟩

/-- Counterexample to C2: on `<html></html>` the analyzer reports
`total_elements = 1` and `max_depth = 0` but `complexity_score = 0`,
whereas `total_elements * max(max_depth, 1) = 1`. -/
theorem complexity_score_claim_counterexample :
    (calculate_dom_complexity bareHtmlSoup).complexity_score
      ≠ (calculate_dom_complexity bareHtmlSoup).total_elements
          * max (calculate_dom_complexity bareHtmlSoup).max_depth 1 := by
  have hdepth : getTreeDepth (Elem.node "html" [] []) 0 = 0 := by
    rw [getTreeDepth_eval]
    simp [Elem.findChildren, findChildrenList]
  simp [calculate_dom_complexity, bareHtmlSoup, Soup.findAll, Soup.htmlElem,
    findChildrenList, Elem.findChildren, Elem.tag, hdepth]

/-- C2 amended: `complexity_score = total_elements * max_depth` whenever an
`html` element exists, and `total_elements * 1` when none does; hence the
claimed identity `complexity_score = total_elements * max(max_depth, 1)`
holds whenever the document has no `html` element or the reported
`max_depth` is nonzero — the sole exception being an `html` element with no
descendants, where the score is 0 while the claimed formula gives
`total_elements`. -/
theorem complexity_score_amended (s : Soup)
    (h : s.htmlElem = none ∨ (calculate_dom_complexity s).max_depth ≠ 0) :
    (calculate_dom_complexity s).complexity_score
      = (calculate_dom_complexity s).total_elements
          * max (calculate_dom_complexity s).max_depth 1 := by
  rcases h with h | h
  · simp [calculate_dom_complexity, h]
  · rcases hh : s.htmlElem with _ | e
    · simp [calculate_dom_complexity, hh]
    · have hd : (calculate_dom_complexity s).max_depth = getTreeDepth e 0 := by
        simp [calculate_dom_complexity, hh]
      rw [hd] at h
      have hmax : max (getTreeDepth e 0) 1 = getTreeDepth e 0 := by omega
      simp [calculate_dom_complexity, hh, hmax]

/-- Witness for the amended C2 on a concrete document
`<html><body></body></html>` (an `html` element with one descendant). -/
theorem complexity_score_amended_witness :
    (calculate_dom_complexity ⟨[Elem.node "html" [] [Elem.node "body" [] []]]⟩).complexity_score
      = (calculate_dom_complexity ⟨[Elem.node "html" [] [Elem.node "body" [] []]]⟩).total_elements
          * max (calculate_dom_complexity ⟨[Elem.node "html" [] [Elem.node "body" [] []]]⟩).max_depth 1 := by
  apply complexity_score_amended
  right
  have hbody : getTreeDepth (Elem.node "body" [] []) 1 = 1 := by
    rw [getTreeDepth_eval]
    simp [Elem.findChildren, findChildrenList]
  have : getTreeDepth (Elem.node "html" [] [Elem.node "body" [] []]) 0 = 1 := by
    rw [getTreeDepth_eval]
    simp [Elem.findChildren, findChildrenList, hbody]
  simp [calculate_dom_complexity, Soup.htmlElem, Soup.findAll, findChildrenList,
    Elem.findChildren, Elem.tag, this]

/-! ### JSON-like values: the shape of analysis results
    (Python dicts / lists / scalars as assembled by the analyzers) -/

/-- A Python value appearing in an analysis-result dict: string, integer,
float (embedded as an exact rational), boolean, `None`, list, or dict
(association list in insertion order). -/
inductive JValue where
  | str (v : String)
  | int (v : Int)
  | rat (v : ℚ)
  | bool (v : Bool)
  | null
  | arr (items : List JValue)
  | obj (fields : List (String × JValue))

/-- Dict key lookup (first binding wins, as in a Python dict where keys are
unique). -/
def jlookup : List (String × JValue) → String → Option JValue
  | [], _ => none
  | kv :: rest, k => if kv.1 == k then some kv.2 else jlookup rest k

/-- Remove a key from a dict. -/
def removeKey (fields : List (String × JValue)) (k : String) : List (String × JValue) :=
  fields.filter (fun kv => kv.1 != k)

mutual

/-- `CoreDOMAnalyzer.count_total_statistics(obj, count)`
(src/core_analyzer.py lines 678–690): threads the running count exactly as
the Python accumulator parameter does. -/
def count_total_statistics : JValue → Nat → Nat
  | .obj fields, count => countFieldValues fields (count + fields.length)
  | .arr items, count => countItems items (count + items.length)
  | .str _, count => count + 1
  | .int _, count => count + 1
  | .rat _, count => count + 1
  | .bool _, count => count + 1
  | .null, count => count + 1

/-- `for value in obj.values(): count = self.count_total_statistics(value, count)`. -/
def countFieldValues : List (String × JValue) → Nat → Nat
  | [], count => count
  | (_, v) :: rest, count => countFieldValues rest (count_total_statistics v count)

/-- `for item in obj: count = self.count_total_statistics(item, count)`. -/
def countItems : List JValue → Nat → Nat
  | [], count => count
  | v :: rest, count => countItems rest (count_total_statistics v count)

end

mutual

/-- The structural data-point count as the specification words it: a mapping
counts its keys plus the counts of all its values, a sequence counts its
length plus the counts of all its elements, and any other value counts
exactly 1.  Written without an accumulator, directly from the spec text, to
be compared with the source's accumulator-threading `count_total_statistics`. -/
def structCount : JValue → Nat
  | .obj fields => fields.length + structCountFields fields
  | .arr items => items.length + structCountItems items
  | .str _ => 1
  | .int _ => 1
  | .rat _ => 1
  | .bool _ => 1
  | .null => 1

def structCountFields : List (String × JValue) → Nat
  | [] => 0
  | (_, v) :: rest => structCount v + structCountFields rest

def structCountItems : List JValue → Nat
  | [] => 0
  | v :: rest => structCount v + structCountItems rest

end

mutual

theorem count_total_statistics_eq_add :
    ∀ (v : JValue) (c : Nat), count_total_statistics v c = c + structCount v
  | .obj fields, c => by
      rw [count_total_statistics, structCount, countFieldValues_eq_add fields]
      omega
  | .arr items, c => by
      rw [count_total_statistics, structCount, countItems_eq_add items]
      omega
  | .str _, c => by rw [count_total_statistics, structCount]
  | .int _, c => by rw [count_total_statistics, structCount]
  | .rat _, c => by rw [count_total_statistics, structCount]
  | .bool _, c => by rw [count_total_statistics, structCount]
  | .null, c => by rw [count_total_statistics, structCount]

theorem countFieldValues_eq_add :
    ∀ (fields : List (String × JValue)) (c : Nat),
      countFieldValues fields c = c + structCountFields fields
  | [], c => by rw [countFieldValues, structCountFields]; omega
  | (k, v) :: rest, c => by
      rw [countFieldValues, structCountFields, countFieldValues_eq_add rest,
        count_total_statistics_eq_add v]
      omega

theorem countItems_eq_add :
    ∀ (items : List JValue) (c : Nat), countItems items c = c + structCountItems items
  | [], c => by rw [countItems, structCountItems]; omega
  | v :: rest, c => by
      rw [countItems, structCountItems, countItems_eq_add rest,
        count_total_statistics_eq_add v]
      omega

end

/-! ### Top-level entry points
    `CoreDOMAnalyzer.generate_comprehensive_analysis`
    (src/core_analyzer.py lines 692–736) and
    `ComprehensiveDOMAnalyzer.generate_comprehensive_analysis`
    (src/comprehensive_analyzer.py lines 1706–1755).

    The per-category analyzer outputs are passed in as `JValue` parameters:
    the component computations themselves (complexity, security, images,
    ids, links, …) are embedded separately above and below, and the claims
    about these entry points quantify over every possible component
    output.  The fetch result is an `Option`: `none` embeds the failed
    fetch (`fetch_single_user_agent` / `fetch_page` returning a falsy
    value). -/

/-- The successful-fetch data the core entry point reads
(`status_code`, `content_length`, `response_time`). -/
structure CoreFetchData where
  status_code : Int
  content_length : Nat
  response_time : ℚ

/-- `'analysis_categories': len([k for k in all_stats.keys() if not k.startswith(('url', 'user_agent', 'meta_'))])`. -/
def analysisCategoriesCount (allStats : List (String × JValue)) : Nat :=
  (allStats.filter (fun kv =>
    !(kv.1.startsWith "url" || kv.1.startsWith "user_agent" || kv.1.startsWith "meta_"))).length

/-- The `all_stats` dict built by the core entry point on a successful
fetch, in source key order. -/
def coreAllStats (url userAgent : String) (rd : CoreFetchData)
    (domComplexityA cssA jsA perfA seoA a11yA securityA : JValue) :
    List (String × JValue) :=
  [("url", .str url),
   ("user_agent_used", .str userAgent),
   ("fetch_info", .obj
     [("status_code", .int rd.status_code),
      ("content_length", .int rd.content_length),
      ("response_time", .rat rd.response_time)]),
   ("dom_complexity", domComplexityA),
   ("css_analysis", cssA),
   ("javascript_analysis", jsA),
   ("performance_metrics", perfA),
   ("seo_signals", seoA),
   ("accessibility", a11yA),
   ("security", securityA)]

/-- `CoreDOMAnalyzer.generate_comprehensive_analysis`: on fetch failure
returns the error dict with the keys `error`, `url`, `timestamp`; on success
builds `all_stats` in source key order and then appends `meta_statistics`,
whose `total_data_points` is `count_total_statistics(all_stats)` evaluated
before the `meta_statistics` key is inserted. -/
def coreGenerateComprehensiveAnalysis (url userAgent timestamp : String)
    (fetch : Option CoreFetchData)
    (domComplexityA cssA jsA perfA seoA a11yA securityA : JValue)
    (processingTime : ℚ) : List (String × JValue) :=
  match fetch with
  | none =>
      [("error", .str ("Failed to fetch page with " ++ userAgent)),
       ("url", .str url),
       ("timestamp", .str timestamp)]
  | some rd =>
      let allStats :=
        coreAllStats url userAgent rd domComplexityA cssA jsA perfA seoA a11yA securityA
      allStats ++
        [("meta_statistics", .obj
          [("total_data_points", .int (count_total_statistics (.obj allStats) 0)),
           ("analysis_categories", .int (analysisCategoriesCount allStats)),
           ("processing_time", .rat processingTime),
           ("timestamp", .str timestamp)])]

/-- The successful-fetch data the comprehensive entry point reads. -/
structure CompFetchData where
  response_time : ℚ
  content_length : Nat
  response_headers_count : Nat

/-- `ComprehensiveDOMAnalyzer.generate_comprehensive_analysis`: on fetch
failure returns `{'error': 'Failed to fetch page', 'url': self.url}`; on
success builds the category dict and appends `meta_analysis` (whose counter
`total_statistics_generated` is the running `statistics_count`, passed here
as a parameter). -/
def comprehensiveGenerateAnalysis (url timestamp : String)
    (fetch : Option CompFetchData)
    (elementA attributeA classA idA linkA imageA scriptA networkA
      pageStructureA cssA formA accessibilityA seoA securityA : JValue)
    (processingTime : ℚ) (statisticsCount : Nat) : List (String × JValue) :=
  match fetch with
  | none => [("error", .str "Failed to fetch page"), ("url", .str url)]
  | some fd =>
      let comprehensiveData : List (String × JValue) :=
        [("url", .str url),
         ("fetch_info", .obj
           [("response_time", .rat fd.response_time),
            ("content_length", .int fd.content_length),
            ("response_headers_count", .int fd.response_headers_count)]),
         ("element_analysis", elementA),
         ("attribute_analysis", attributeA),
         ("class_analysis", classA),
         ("id_analysis", idA),
         ("link_analysis", linkA),
         ("image_analysis", imageA),
         ("script_analysis", scriptA),
         ("network_analysis", networkA),
         ("page_structure", pageStructureA),
         ("css_analysis", cssA),
         ("form_analysis", formA),
         ("accessibility_analysis", accessibilityA),
         ("seo_analysis", seoA),
         ("security_analysis", securityA)]
      comprehensiveData ++
        [("meta_analysis", .obj
          [("total_statistics_generated", .int statisticsCount),
           ("processing_time", .rat processingTime),
           ("analysis_timestamp", .str timestamp),
           ("analysis_categories", .int
             ((comprehensiveData.filter (fun kv =>
               kv.1.endsWith "_analysis" || kv.1 == "page_structure")).length)),
           ("analyzer_version", .str "1.0.0")])]

/-- Counterexample to C3: on fetch failure the core entry point returns a
dict with three top-level keys — `error`, `url`, `timestamp` — not two. -/
theorem fetch_failure_keys_counterexample :
    (coreGenerateComprehensiveAnalysis "https://example.com" "desktop_chrome"
        "2024-01-01 00:00:00" none .null .null .null .null .null .null .null 0).map Prod.fst
      = ["error", "url", "timestamp"] ∧
    ((coreGenerateComprehensiveAnalysis "https://example.com" "desktop_chrome"
        "2024-01-01 00:00:00" none .null .null .null .null .null .null .null 0).length ≠ 2) := by
  constructor
  · rfl
  · decide

/-- C3 amended: on fetch failure the comprehensive entry point returns
exactly the two top-level keys `error` and `url`, while the core entry point
returns exactly the three top-level keys `error`, `url` and `timestamp`; in
both cases no analyzer-output key is present. -/
theorem fetch_failure_result_keys (url userAgent timestamp : String)
    (domComplexityA cssA jsA perfA seoA a11yA securityA : JValue)
    (elementA attributeA classA idA linkA imageA scriptA networkA
      pageStructureA cssB formA accessibilityA seoB securityB : JValue)
    (pt1 pt2 : ℚ) (sc : Nat) :
    (comprehensiveGenerateAnalysis url timestamp none
        elementA attributeA classA idA linkA imageA scriptA networkA
        pageStructureA cssB formA accessibilityA seoB securityB pt2 sc).map Prod.fst
      = ["error", "url"] ∧
    (coreGenerateComprehensiveAnalysis url userAgent timestamp none
        domComplexityA cssA jsA perfA seoA a11yA securityA pt1).map Prod.fst
      = ["error", "url", "timestamp"] := by
  constructor
  · rfl
  · rfl

theorem jlookup_append_right :
    ∀ (l1 l2 : List (String × JValue)) (k : String),
      k ∉ l1.map Prod.fst → jlookup (l1 ++ l2) k = jlookup l2 k := by
  intro l1
  induction l1 with
  | nil => intro l2 k h; simp
  | cons x xs ih =>
      intro l2 k h
      simp only [List.map_cons, List.mem_cons, not_or] at h
      have hx : (x.1 == k) = false := by
        apply beq_eq_false_iff_ne.mpr
        intro he
        exact h.1 he.symm
      simp only [List.cons_append, jlookup, hx, if_false, Bool.false_eq_true]
      exact ih l2 k h.2

theorem removeKey_of_not_mem :
    ∀ (l : List (String × JValue)) (k : String),
      k ∉ l.map Prod.fst → removeKey l k = l := by
  intro l
  induction l with
  | nil => intro k h; rfl
  | cons x xs ih =>
      intro k h
      simp only [List.map_cons, List.mem_cons, not_or] at h
      have hx : (x.1 != k) = true := by
        simp only [bne_iff_ne, ne_eq]
        intro he
        exact h.1 he.symm
      simp only [removeKey, List.filter_cons, hx, if_true]
      have := ih k h.2
      simp only [removeKey] at this
      rw [this]

/-- C7: in every merged core analysis result, the `meta_statistics` block's
`total_data_points` equals the structural recursive count (`structCount`)
applied to the merged result with the `meta_statistics` block removed. -/
theorem core_success_meta_data_points (url userAgent timestamp : String)
    (rd : CoreFetchData)
    (domComplexityA cssA jsA perfA seoA a11yA securityA : JValue)
    (processingTime : ℚ) :
    ∃ meta,
      jlookup (coreGenerateComprehensiveAnalysis url userAgent timestamp (some rd)
          domComplexityA cssA jsA perfA seoA a11yA securityA processingTime)
          "meta_statistics"
        = some (.obj meta) ∧
      jlookup meta "total_data_points"
        = some (.int (structCount (.obj (removeKey
            (coreGenerateComprehensiveAnalysis url userAgent timestamp (some rd)
              domComplexityA cssA jsA perfA seoA a11yA securityA processingTime)
            "meta_statistics")))) := by
  set A := coreAllStats url userAgent rd domComplexityA cssA jsA perfA seoA a11yA securityA
    with hA
  have hkeys : A.map Prod.fst
      = ["url", "user_agent_used", "fetch_info", "dom_complexity", "css_analysis",
         "javascript_analysis", "performance_metrics", "seo_signals", "accessibility",
         "security"] := by
    rw [hA]; rfl
  have hnot : "meta_statistics" ∉ A.map Prod.fst := by
    rw [hkeys]; decide
  have hres : coreGenerateComprehensiveAnalysis url userAgent timestamp (some rd)
      domComplexityA cssA jsA perfA seoA a11yA securityA processingTime
      = A ++ [("meta_statistics", .obj
          [("total_data_points", .int (count_total_statistics (.obj A) 0)),
           ("analysis_categories", .int (analysisCategoriesCount A)),
           ("processing_time", .rat processingTime),
           ("timestamp", .str timestamp)])] := rfl
  have hremove : removeKey (coreGenerateComprehensiveAnalysis url userAgent timestamp
      (some rd) domComplexityA cssA jsA perfA seoA a11yA securityA processingTime)
      "meta_statistics" = A := by
    rw [hres]
    have h1 : removeKey (A ++ [("meta_statistics", JValue.obj
        [("total_data_points", .int (count_total_statistics (.obj A) 0)),
         ("analysis_categories", .int (analysisCategoriesCount A)),
         ("processing_time", .rat processingTime),
         ("timestamp", .str timestamp)])]) "meta_statistics"
        = removeKey A "meta_statistics" ++ [] := by
      simp [removeKey, List.filter_append]
    rw [h1, removeKey_of_not_mem A "meta_statistics" hnot, List.append_nil]
  refine ⟨[("total_data_points", .int (count_total_statistics (.obj A) 0)),
           ("analysis_categories", .int (analysisCategoriesCount A)),
           ("processing_time", .rat processingTime),
           ("timestamp", .str timestamp)], ?_, ?_⟩
  · rw [hres, jlookup_append_right A _ "meta_statistics" hnot]
    simp [jlookup]
  · rw [hremove]
    simp only [jlookup, if_true, beq_self_eq_true]
    rw [count_total_statistics_eq_add]
    norm_num

/-! ### Image alt-text analysis
    `ComprehensiveDOMAnalyzer.analyze_images_comprehensive`
    (src/comprehensive_analyzer.py lines 596–700, alt-text portion
    lines 620–636) and the alt-text tallies of
    `CoreDOMAnalyzer.analyze_accessibility_advanced`
    (src/core_analyzer.py lines 578–585).

    An `img` element is represented by its attribute list; `img.get('alt')`
    is the first-match attribute lookup.  Python's `alt.strip()` is embedded
    as `pyStrip` (remove leading and trailing whitespace characters). -/

/-- `element.get(name)`: attribute lookup, `None` when absent. -/
def getAttr (attrs : List (String × String)) (name : String) : Option String :=
  (attrs.find? (fun kv => kv.1 == name)).map Prod.snd

/-- Python `str.isspace()` on a single character: the characters
`str.strip()` removes.  CPython treats as whitespace the ASCII range
9-13 (tab, newline, vertical tab, form feed, carriage return), the
separators 28-31, the space (32), next line (133), no-break space
(160), ogham space mark (5760), the Unicode spaces 8192-8202, the
line and paragraph separators (8232, 8233), narrow no-break space
(8239), medium mathematical space (8287), and the ideographic space
(12288). -/
def pyIsSpace (c : Char) : Bool :=
  (9 ≤ c.toNat && c.toNat ≤ 13) ||
  (28 ≤ c.toNat && c.toNat ≤ 31) ||
  c.toNat == 32 ||
  c.toNat == 133 ||
  c.toNat == 160 ||
  c.toNat == 5760 ||
  (8192 ≤ c.toNat && c.toNat ≤ 8202) ||
  c.toNat == 8232 || c.toNat == 8233 ||
  c.toNat == 8239 ||
  c.toNat == 8287 ||
  c.toNat == 12288

/-- Python `str.strip()`: drop leading and trailing whitespace
(`pyIsSpace`) characters. -/
def pyStrip (s : String) : String :=
  ⟨((s.data.dropWhile pyIsSpace).reverse.dropWhile pyIsSpace).reverse⟩

theorem pyStrip_empty : pyStrip "" = "" := rfl

/-- The alt-text fields of the image-analysis dict. -/
structure ImageAltCounts where
  total_images : Nat
  with_alt : Nat
  without_alt : Nat
  empty_alt : Nat

/-- The per-image alt-text branch of `analyze_images_comprehensive`:
`alt = img.get('alt'); if alt is not None: with_alt += 1; if alt.strip() == '':
empty_alt += 1 else: ... else: without_alt += 1`. -/
def imageAltStep (acc : ImageAltCounts) (img : List (String × String)) : ImageAltCounts :=
  match getAttr img "alt" with
  | some alt =>
      { acc with
        with_alt := acc.with_alt + 1
        empty_alt := if pyStrip alt = "" then acc.empty_alt + 1 else acc.empty_alt }
  | none => { acc with without_alt := acc.without_alt + 1 }

/-- The alt-text tallies of `analyze_images_comprehensive`:
`total_images = len(images)` is set before the loop; the loop then updates
the three alt counters for each image in document order. -/
def analyze_images_alt (images : List (List (String × String))) : ImageAltCounts :=
  images.foldl imageAltStep
    { total_images := images.length, with_alt := 0, without_alt := 0, empty_alt := 0 }

/-- The `alternative_text` tallies of `analyze_accessibility_advanced`:
four independent comprehension sums over the same image list
(`alt is not None`, `alt == ''`, `alt is None`). -/
structure A11yAltCounts where
  total_images : Nat
  with_alt : Nat
  empty_alt : Nat
  missing_alt : Nat

def analyze_accessibility_alt (images : List (List (String × String))) : A11yAltCounts :=
  { total_images := images.length
    with_alt := images.countP (fun img => (getAttr img "alt").isSome)
    empty_alt := images.countP (fun img => getAttr img "alt" == some "")
    missing_alt := images.countP (fun img => (getAttr img "alt").isNone) }

/-- The three alt-text states of an image as the image analyzer classifies
them: no `alt` attribute; an `alt` that strips to the empty string; a
non-empty (after stripping) `alt`. -/
def altMissing (img : List (String × String)) : Bool := (getAttr img "alt").isNone

def altEmptyState (img : List (String × String)) : Bool :=
  match getAttr img "alt" with
  | some alt => pyStrip alt == ""
  | none => false

def altPresentState (img : List (String × String)) : Bool :=
  match getAttr img "alt" with
  | some alt => pyStrip alt != ""
  | none => false

theorem imageAltStep_total (acc : ImageAltCounts) (img : List (String × String)) :
    (imageAltStep acc img).total_images = acc.total_images := by
  rcases hget : getAttr img "alt" with _ | alt <;> simp [imageAltStep, hget]

theorem imageAltStep_with (acc : ImageAltCounts) (img : List (String × String)) :
    (imageAltStep acc img).with_alt
      = acc.with_alt + (if (getAttr img "alt").isSome then 1 else 0) := by
  rcases hget : getAttr img "alt" with _ | alt <;> simp [imageAltStep, hget]

theorem imageAltStep_without (acc : ImageAltCounts) (img : List (String × String)) :
    (imageAltStep acc img).without_alt
      = acc.without_alt + (if altMissing img then 1 else 0) := by
  rcases hget : getAttr img "alt" with _ | alt <;>
    simp [imageAltStep, altMissing, hget]

theorem imageAltStep_empty (acc : ImageAltCounts) (img : List (String × String)) :
    (imageAltStep acc img).empty_alt
      = acc.empty_alt + (if altEmptyState img then 1 else 0) := by
  rcases hget : getAttr img "alt" with _ | alt
  · simp [imageAltStep, altEmptyState, hget]
  · by_cases htrim : pyStrip alt = "" <;> simp [imageAltStep, altEmptyState, hget, htrim]

theorem imageAlt_foldl_total :
    ∀ (images : List (List (String × String))) (acc : ImageAltCounts),
      (images.foldl imageAltStep acc).total_images = acc.total_images := by
  intro images
  induction images with
  | nil => intro acc; rfl
  | cons img rest ih =>
      intro acc
      rw [List.foldl_cons, ih, imageAltStep_total]

theorem imageAlt_foldl_with :
    ∀ (images : List (List (String × String))) (acc : ImageAltCounts),
      (images.foldl imageAltStep acc).with_alt
        = acc.with_alt + images.countP (fun img => (getAttr img "alt").isSome) := by
  intro images
  induction images with
  | nil => intro acc; simp
  | cons img rest ih =>
      intro acc
      rw [List.foldl_cons, ih, imageAltStep_with, List.countP_cons]
      by_cases h : (getAttr img "alt").isSome <;> simp [h] <;> omega

theorem imageAlt_foldl_without :
    ∀ (images : List (List (String × String))) (acc : ImageAltCounts),
      (images.foldl imageAltStep acc).without_alt
        = acc.without_alt + images.countP altMissing := by
  intro images
  induction images with
  | nil => intro acc; simp
  | cons img rest ih =>
      intro acc
      rw [List.foldl_cons, ih, imageAltStep_without, List.countP_cons]
      by_cases h : altMissing img <;> simp [h] <;> omega

theorem imageAlt_foldl_empty :
    ∀ (images : List (List (String × String))) (acc : ImageAltCounts),
      (images.foldl imageAltStep acc).empty_alt
        = acc.empty_alt + images.countP altEmptyState := by
  intro images
  induction images with
  | nil => intro acc; simp
  | cons img rest ih =>
      intro acc
      rw [List.foldl_cons, ih, imageAltStep_empty, List.countP_cons]
      by_cases h : altEmptyState img <;> simp [h] <;> omega

theorem altStates_partition (img : List (String × String)) :
    (altMissing img = true ∨ altEmptyState img = true ∨ altPresentState img = true) ∧
    ¬(altMissing img = true ∧ altEmptyState img = true) ∧
    ¬(altMissing img = true ∧ altPresentState img = true) ∧
    ¬(altEmptyState img = true ∧ altPresentState img = true) := by
  rcases hget : getAttr img "alt" with _ | alt
  · simp [altMissing, altEmptyState, altPresentState, hget]
  · by_cases htrim : pyStrip alt = "" <;>
      simp [altMissing, altEmptyState, altPresentState, hget, htrim]

theorem countP_partition_sum (images : List (List (String × String))) :
    images.countP altMissing + images.countP altEmptyState
        + images.countP altPresentState = images.length := by
  induction images with
  | nil => simp
  | cons img rest ih =>
      simp only [List.countP_cons, List.length_cons]
      rcases hget : getAttr img "alt" with _ | alt
      · simp only [altMissing, altEmptyState, altPresentState, hget]
        simp
        omega
      · by_cases htrim : pyStrip alt = ""
        · simp only [altMissing, altEmptyState, altPresentState, hget]
          simp [htrim]
          omega
        · simp only [altMissing, altEmptyState, altPresentState, hget]
          simp [htrim]
          omega

theorem countP_isSome_split (images : List (List (String × String))) :
    images.countP (fun img => (getAttr img "alt").isSome)
      = images.countP altEmptyState + images.countP altPresentState := by
  induction images with
  | nil => simp
  | cons img rest ih =>
      simp only [List.countP_cons, ih]
      rcases hget : getAttr img "alt" with _ | alt
      · simp [altEmptyState, altPresentState, hget]
      · by_cases htrim : pyStrip alt = ""
        · simp [altEmptyState, altPresentState, hget, htrim]
          omega
        · simp [altEmptyState, altPresentState, hget, htrim]
          omega

/-- C4: for every image list, `with_alt + without_alt = total_images` and
`empty_alt ≤ with_alt`; and the three per-image alt states — missing,
empty, present — are mutually exclusive, cover every image, and their
counts (`without_alt`, `empty_alt`, `with_alt - empty_alt`) sum to the
total image count. -/
theorem image_alt_invariants (images : List (List (String × String))) :
    (analyze_images_alt images).with_alt + (analyze_images_alt images).without_alt
        = (analyze_images_alt images).total_images ∧
    (analyze_images_alt images).empty_alt ≤ (analyze_images_alt images).with_alt ∧
    (analyze_images_alt images).without_alt + (analyze_images_alt images).empty_alt
        + ((analyze_images_alt images).with_alt - (analyze_images_alt images).empty_alt)
        = (analyze_images_alt images).total_images ∧
    (∀ img ∈ images,
      (altMissing img = true ∨ altEmptyState img = true ∨ altPresentState img = true) ∧
      ¬(altMissing img = true ∧ altEmptyState img = true) ∧
      ¬(altMissing img = true ∧ altPresentState img = true) ∧
      ¬(altEmptyState img = true ∧ altPresentState img = true)) := by
  have h1 := imageAlt_foldl_total images
    { total_images := images.length, with_alt := 0, without_alt := 0, empty_alt := 0 }
  have h2 := imageAlt_foldl_with images
    { total_images := images.length, with_alt := 0, without_alt := 0, empty_alt := 0 }
  have h3 := imageAlt_foldl_without images
    { total_images := images.length, with_alt := 0, without_alt := 0, empty_alt := 0 }
  have h4 := imageAlt_foldl_empty images
    { total_images := images.length, with_alt := 0, without_alt := 0, empty_alt := 0 }
  have hsome := countP_isSome_split images
  have hmiss : images.countP altMissing
      = images.countP (fun img => (getAttr img "alt").isNone) := by
    apply List.countP_congr
    intro img _
    simp [altMissing]
  have hsum := countP_partition_sum images
  constructor
  · simp only [analyze_images_alt] at *
    rw [h1, h2, h3]
    omega
  constructor
  · simp only [analyze_images_alt] at *
    rw [h2, h4]
    omega
  constructor
  · simp only [analyze_images_alt] at *
    rw [h1, h2, h3, h4]
    omega
  · intro img _
    exact altStates_partition img

/-- Counterexample to C9: on a single image with the whitespace-only alt
text `alt=" "`, the core accessibility analyzer reports `empty_alt = 0`
(it compares `alt == ''`) while the image analyzer reports `empty_alt = 1`
(it compares `alt.strip() == ''`). -/
theorem alt_tallies_disagree_counterexample :
    (analyze_accessibility_alt [[("alt", " ")]]).empty_alt = 0 ∧
    (analyze_images_alt [[("alt", " ")]]).empty_alt = 1 := by
  constructor
  · rfl
  · rfl

/-- C9 amended: the two analyzers agree unconditionally — on every image
list — on `total_images`, `with_alt`, and the missing count
(`missing_alt` = `without_alt`); they agree on `empty_alt` whenever no
image carries a whitespace-only non-empty alt value (i.e. whenever every
present alt value strips to empty exactly when it is empty) — the core
analyzer counts `alt == ''` while the image analyzer counts
`alt.strip() == ''`. -/
theorem alt_tallies_agree_amended (images : List (List (String × String))) :
    (analyze_images_alt images).total_images = (analyze_accessibility_alt images).total_images ∧
    (analyze_images_alt images).with_alt = (analyze_accessibility_alt images).with_alt ∧
    (analyze_images_alt images).without_alt = (analyze_accessibility_alt images).missing_alt ∧
    ((∀ img ∈ images, ∀ s, getAttr img "alt" = some s → (pyStrip s = "" ↔ s = "")) →
      (analyze_images_alt images).empty_alt
        = (analyze_accessibility_alt images).empty_alt) := by
  have h1 := imageAlt_foldl_total images
    { total_images := images.length, with_alt := 0, without_alt := 0, empty_alt := 0 }
  have h2 := imageAlt_foldl_with images
    { total_images := images.length, with_alt := 0, without_alt := 0, empty_alt := 0 }
  have h3 := imageAlt_foldl_without images
    { total_images := images.length, with_alt := 0, without_alt := 0, empty_alt := 0 }
  have h4 := imageAlt_foldl_empty images
    { total_images := images.length, with_alt := 0, without_alt := 0, empty_alt := 0 }
  refine ⟨?_, ?_, ?_, ?_⟩
  · simp only [analyze_images_alt, analyze_accessibility_alt] at *
    rw [h1]
  · simp only [analyze_images_alt, analyze_accessibility_alt] at *
    rw [h2]
    omega
  · simp only [analyze_images_alt, analyze_accessibility_alt] at *
    rw [h3]
    have : images.countP altMissing
        = images.countP (fun img => (getAttr img "alt").isNone) := by
      apply List.countP_congr
      intro img _
      simp [altMissing]
    omega
  · intro h
    simp only [analyze_images_alt, analyze_accessibility_alt] at *
    rw [h4]
    have : images.countP altEmptyState
        = images.countP (fun img => getAttr img "alt" == some "") := by
      apply List.countP_congr
      intro img hm
      rcases hget : getAttr img "alt" with _ | alt
      · simp [altEmptyState, hget]
      · have hiff := h img hm alt hget
        by_cases hs : alt = ""
        · simp [altEmptyState, hget, hs, pyStrip_empty]
        · have : ¬ pyStrip alt = "" := fun ht => hs (hiff.mp ht)
          simp [altEmptyState, hget, hs, this]
    omega

/-- Witness for the amended C9 at a concrete input: one image with
`alt="x"`, one with `alt=""`, one with no alt; the no-whitespace-alt
hypothesis of the `empty_alt` conjunct is discharged concretely. -/
theorem alt_tallies_agree_amended_witness :
    (analyze_images_alt [[("alt", "x")], [("alt", "")], [("src", "a.png")]]).total_images
        = (analyze_accessibility_alt [[("alt", "x")], [("alt", "")], [("src", "a.png")]]).total_images ∧
    (analyze_images_alt [[("alt", "x")], [("alt", "")], [("src", "a.png")]]).with_alt
        = (analyze_accessibility_alt [[("alt", "x")], [("alt", "")], [("src", "a.png")]]).with_alt ∧
    (analyze_images_alt [[("alt", "x")], [("alt", "")], [("src", "a.png")]]).without_alt
        = (analyze_accessibility_alt [[("alt", "x")], [("alt", "")], [("src", "a.png")]]).missing_alt ∧
    (analyze_images_alt [[("alt", "x")], [("alt", "")], [("src", "a.png")]]).empty_alt
        = (analyze_accessibility_alt [[("alt", "x")], [("alt", "")], [("src", "a.png")]]).empty_alt :=
  ⟨(alt_tallies_agree_amended [[("alt", "x")], [("alt", "")], [("src", "a.png")]]).1,
   (alt_tallies_agree_amended [[("alt", "x")], [("alt", "")], [("src", "a.png")]]).2.1,
   (alt_tallies_agree_amended [[("alt", "x")], [("alt", "")], [("src", "a.png")]]).2.2.1,
   (alt_tallies_agree_amended [[("alt", "x")], [("alt", "")], [("src", "a.png")]]).2.2.2
     (by
       intro img hm s hs
       fin_cases hm <;> simp_all [getAttr] <;> subst hs <;> decide)⟩

/-! ### Link categorization and URL resolution
    `ComprehensiveDOMAnalyzer.analyze_links_comprehensive`
    (src/comprehensive_analyzer.py lines 444–501) and the resource-URL
    resolution of `ComprehensiveDOMAnalyzer.analyze_network_comprehensive`
    (lines 925–937). -/

/-- Python `str.startswith(p)`: computable character-list comparison
(embedding of the string method used throughout the two analyzers). -/
def strStartsWith (s p : String) : Bool := p.data.isPrefixOf s.data

/-- How `analyze_links_comprehensive` buckets one `href`. -/
inductive LinkKind where
  | anchor
  | email
  | phone
  | navigable (full_url : String)
  | other

deriving instance DecidableEq for LinkKind

/-- The `href`-classification chain of `analyze_links_comprehensive`:
fragment, `mailto:`, `tel:`, then navigable
(`startswith(('http://', 'https://', '//', '/'))`) with the resolution
`'https:' + href` for protocol-relative hrefs and
`f"{scheme}://{netloc}{href}"` for root-relative ones; anything else
falls through unbucketed. -/
def categorizeLink (scheme netloc href : String) : LinkKind :=
  if strStartsWith href "#" then .anchor
  else if strStartsWith href "mailto:" then .email
  else if strStartsWith href "tel:" then .phone
  else if strStartsWith href "http://" || strStartsWith href "https://"
      || strStartsWith href "//" || strStartsWith href "/" then
    .navigable
      (if strStartsWith href "//" then "https:" ++ href
       else if strStartsWith href "/" then scheme ++ "://" ++ netloc ++ href
       else href)
  else .other

/-- The resource-URL cleanup of `analyze_network_comprehensive`:
`if url.startswith('//'): url = 'https:' + url
elif url.startswith('/'): url = f"{scheme}://{netloc}{url}"`. -/
def resolveResourceUrl (scheme netloc url : String) : String :=
  if strStartsWith url "//" then "https:" ++ url
  else if strStartsWith url "/" then scheme ++ "://" ++ netloc ++ url
  else url

/-- Counterexample to C5: analyzing a page at `http://example.com`, the
protocol-relative href `//cdn.example.com/app.js` is resolved by both the
link analyzer and the network analyzer to `https://cdn.example.com/app.js`
— with the literal `https` scheme — not to `http://cdn.example.com/app.js`
as the source URL's scheme would dictate. -/
theorem protocol_relative_scheme_counterexample :
    categorizeLink "http" "example.com" "//cdn.example.com/app.js"
        = .navigable "https://cdn.example.com/app.js" ∧
    categorizeLink "http" "example.com" "//cdn.example.com/app.js"
        ≠ .navigable "http://cdn.example.com/app.js" ∧
    resolveResourceUrl "http" "example.com" "//cdn.example.com/app.js"
        = "https://cdn.example.com/app.js" := by
  refine ⟨by decide, by decide, by decide⟩

/-- C5 amended: a protocol-relative `//host/path` href is always resolved
with the literal `https` scheme, regardless of the source URL's scheme,
in both the link analyzer and the network analyzer; a root-relative href
starting with `/` (but not `//`) is resolved against the source URL's
scheme and network location.  (The hypotheses rule out the earlier
branches of the source's `elif` chain — fragment, mailto, tel — which a
`/`-initial href can never match.) -/
theorem url_resolution_amended (scheme netloc href : String)
    (hfrag : strStartsWith href "#" = false)
    (hmail : strStartsWith href "mailto:" = false)
    (htel : strStartsWith href "tel:" = false) :
    (strStartsWith href "//" = true →
      categorizeLink scheme netloc href = .navigable ("https:" ++ href) ∧
      resolveResourceUrl scheme netloc href = "https:" ++ href) ∧
    (strStartsWith href "//" = false → strStartsWith href "/" = true →
      categorizeLink scheme netloc href
          = .navigable (scheme ++ "://" ++ netloc ++ href) ∧
      resolveResourceUrl scheme netloc href = scheme ++ "://" ++ netloc ++ href) := by
  constructor
  · intro h2
    constructor
    · simp [categorizeLink, hfrag, hmail, htel, h2]
    · simp [resolveResourceUrl, h2]
  · intro h2 h1
    constructor
    · simp [categorizeLink, hfrag, hmail, htel, h2, h1]
    · simp [resolveResourceUrl, h2, h1]

/-- Witness for the amended C5 at concrete inputs: a protocol-relative and
a root-relative href on an `http` page. -/
theorem url_resolution_amended_witness :
    (categorizeLink "http" "example.com" "//cdn.example.com/app.js"
        = .navigable "https://cdn.example.com/app.js" ∧
      resolveResourceUrl "http" "example.com" "//cdn.example.com/app.js"
        = "https://cdn.example.com/app.js") ∧
    (categorizeLink "http" "example.com" "/about"
        = .navigable "http://example.com/about" ∧
      resolveResourceUrl "http" "example.com" "/about"
        = "http://example.com/about") := by
  constructor
  · exact (url_resolution_amended "http" "example.com" "//cdn.example.com/app.js"
      (by decide) (by decide) (by decide)).1 (by decide)
  · exact (url_resolution_amended "http" "example.com" "/about"
      (by decide) (by decide) (by decide)).2 (by decide) (by decide)

/-! ### ID analysis — `ComprehensiveDOMAnalyzer.analyze_ids_comprehensive`
    (src/comprehensive_analyzer.py lines 359–441; the id-format regex
    pattern tallies, which no claim touches, are not modelled).

    The document is represented by the sequence of `id`-attribute values of
    its elements in document order (`None` for an element without the
    attribute).  The Python set `unique_ids` is modelled as a list with
    membership-checked insertion, which supports exactly the operations the
    code performs on it (`in`, `add`, `len`); the dicts `duplicate_ids` and
    `id_usage` as association lists in insertion order. -/

/-- Counter-dict increment used for `duplicate_ids[k] += 1` and
`id_usage[k] += 1` (the key is always present when the code increments). -/
def bumpCounter (m : List (String × Nat)) (k : String) : List (String × Nat) :=
  m.map (fun kv => if kv.1 == k then (kv.1, kv.2 + 1) else kv)

/-- `if k not in m: m[k] = v` — append a fresh binding at the end unless
the key exists (Python dicts preserve insertion order). -/
def ensureKey (m : List (String × Nat)) (k : String) (v : Nat) : List (String × Nat) :=
  if m.any (fun kv => kv.1 == k) then m else m ++ [(k, v)]

/-- The fields of the id-analysis dict that the claims touch. -/
structure IdAnalysis where
  unique_ids : List String
  duplicate_ids : List (String × Nat)
  id_usage : List (String × Nat)
  elements_with_ids : Nat
  elements_without_ids : Nat
  id_length_stats : List Nat

def emptyIdAnalysis : IdAnalysis :=
  { unique_ids := [], duplicate_ids := [], id_usage := [],
    elements_with_ids := 0, elements_without_ids := 0, id_length_stats := [] }

/-- One iteration of the element loop in `analyze_ids_comprehensive`:
`element_id = element.get('id'); if element_id:` (truthiness — `None` and
the empty string both take the else branch) `elements_with_ids += 1`; a
second or later occurrence goes through
`if element_id not in duplicate_ids: duplicate_ids[element_id] = 1` then
`duplicate_ids[element_id] += 1` (so the first duplicate records 2) and is
NOT removed from `unique_ids`; a first occurrence is added to `unique_ids`;
`id_usage` and `id_length_stats` are updated for every truthy id. -/
def idStep (a : IdAnalysis) (elementId : Option String) : IdAnalysis :=
  match elementId with
  | some eid =>
      if eid = "" then { a with elements_without_ids := a.elements_without_ids + 1 }
      else
        let a1 := { a with elements_with_ids := a.elements_with_ids + 1 }
        let a2 :=
          if a1.unique_ids.contains eid then
            { a1 with duplicate_ids := bumpCounter (ensureKey a1.duplicate_ids eid 1) eid }
          else
            { a1 with unique_ids := a1.unique_ids ++ [eid] }
        let a3 := { a2 with id_usage := bumpCounter (ensureKey a2.id_usage eid 0) eid }
        { a3 with id_length_stats := a3.id_length_stats ++ [eid.length] }
  | none => { a with elements_without_ids := a.elements_without_ids + 1 }

/-- The element loop of `analyze_ids_comprehensive` over the document's
id-attribute sequence. -/
def analyze_ids (ids : List (Option String)) : IdAnalysis :=
  ids.foldl idStep emptyIdAnalysis

theorem idStep_unique_monotone (a : IdAnalysis) (i : Option String) (x : String)
    (hx : x ∈ a.unique_ids) : x ∈ (idStep a i).unique_ids := by
  rcases i with _ | eid
  · exact hx
  · by_cases he : eid = ""
    · simp [idStep, he]
      exact hx
    · by_cases hc : eid ∈ a.unique_ids
      · simp [idStep, he, hc]
        exact hx
      · simp [idStep, he, hc]
        exact Or.inl hx

theorem foldl_unique_monotone :
    ∀ (ys : List (Option String)) (a : IdAnalysis) (x : String),
      x ∈ a.unique_ids → x ∈ (ys.foldl idStep a).unique_ids := by
  intro ys
  induction ys with
  | nil => intro a x hx; exact hx
  | cons i rest ih =>
      intro a x hx
      exact ih (idStep a i) x (idStep_unique_monotone a i x hx)

/-- C6: running the ID analysis on a document whose id attributes occur in
the order `[a, a, b]` (both nonempty, distinct) yields a unique-id set of
size 2 holding `a` and `b`, `elements_with_ids = 3`, and a `duplicate_ids`
mapping whose single entry is `a` with count 2 (the implementation's fixed
convention, within the claim's allowed `{1, 2}`); moreover an id already in
the unique-id set is never removed by processing further elements — the set
grows monotonically. -/
theorem id_analysis_aab (a b : String) (ha : a ≠ "") (hb : b ≠ "") (hab : a ≠ b) :
    (analyze_ids [some a, some a, some b]).unique_ids = [a, b] ∧
    (analyze_ids [some a, some a, some b]).unique_ids.length = 2 ∧
    (analyze_ids [some a, some a, some b]).elements_with_ids = 3 ∧
    (analyze_ids [some a, some a, some b]).duplicate_ids = [(a, 2)] ∧
    (∀ (xs ys : List (Option String)) (x : String),
      x ∈ (analyze_ids xs).unique_ids → x ∈ (analyze_ids (xs ++ ys)).unique_ids) := by
  have hba : b ≠ a := fun he => hab he.symm
  refine ⟨?_, ?_, ?_, ?_, ?_⟩
  · simp [analyze_ids, emptyIdAnalysis, idStep, ha, hb, bumpCounter, ensureKey,
      hba, hab]
  · simp [analyze_ids, emptyIdAnalysis, idStep, ha, hb, bumpCounter, ensureKey,
      hba, hab]
  · simp [analyze_ids, emptyIdAnalysis, idStep, ha, hb, bumpCounter, ensureKey,
      hba, hab]
  · simp [analyze_ids, emptyIdAnalysis, idStep, ha, hb, bumpCounter, ensureKey,
      hba, hab]
  · intro xs ys x hx
    rw [analyze_ids, List.foldl_append]
    exact foldl_unique_monotone ys (analyze_ids xs) x hx

/-- Witness for C6 at the concrete ids `["nav", "nav", "footer"]`. -/
theorem id_analysis_aab_witness :
    (analyze_ids [some "nav", some "nav", some "footer"]).unique_ids = ["nav", "footer"] ∧
    (analyze_ids [some "nav", some "nav", some "footer"]).unique_ids.length = 2 ∧
    (analyze_ids [some "nav", some "nav", some "footer"]).elements_with_ids = 3 ∧
    (analyze_ids [some "nav", some "nav", some "footer"]).duplicate_ids = [("nav", 2)] := by
  have h := id_analysis_aab "nav" "footer" (by decide) (by decide) (by decide)
  exact ⟨h.1, h.2.1, h.2.2.1, h.2.2.2.1⟩

/-! ### Malformed sub-content recovery
    JSON-LD collection in `CoreDOMAnalyzer.analyze_seo_signals`
    (src/core_analyzer.py lines 430–442) and positive-tabindex counting in
    `CoreDOMAnalyzer.analyze_accessibility_advanced` (lines 587–596).

    `json.loads` and `int(...)` are Python library functions, not repository
    code; they are taken as parameters of type `String → Option _`, `none`
    embedding the raised-and-caught `JSONDecodeError` / `ValueError`. -/

/-- A `<script type="application/ld+json">` element: its `.string` content
(`none` when the element has no single string child). -/
structure ScriptTag where
  content : Option String

/-- What one parsed JSON-LD document contributes to `schema_types`:
`if '@type' in data: schema_types.append(data['@type'])`.  For a non-dict
value, Python's `'@type' in data` is either `False` (list without a
matching element, string without the substring) or raises a caught
`TypeError`, and `data['@type']` on a list or string raises a caught
`TypeError`; in every non-dict case nothing is appended. -/
def schemaTypeOf (data : JValue) : Option JValue :=
  match data with
  | .obj fields => jlookup fields "@type"
  | _ => none

/-- The JSON-LD loop of `analyze_seo_signals`:
`for script in json_ld_scripts: try: if script.string: data = json.loads(script.string);
if '@type' in data: schema_types.append(data['@type']) except (...): pass`.
A script whose content is absent or empty (falsy), fails to parse, or
carries no `@type` contributes nothing. -/
def extract_schema_types (parseJson : String → Option JValue)
    (scripts : List ScriptTag) : List JValue :=
  scripts.foldl
    (fun acc s =>
      match s.content with
      | some str =>
          if str = "" then acc
          else
            match parseJson str with
            | some data =>
                match schemaTypeOf data with
                | some t => acc ++ [t]
                | none => acc
            | none => acc
      | none => acc) []

/-- The positive-tabindex loop of `analyze_accessibility_advanced`:
`for elem in soup.find_all(attrs={'tabindex': True}): try:
if int(elem.get('tabindex', 0)) > 0: positive_tabindex += 1
except (ValueError, TypeError): pass` — over the list of `tabindex`
attribute values in document order. -/
def count_positive_tabindex (parseInt : String → Option Int)
    (tabindexValues : List String) : Nat :=
  tabindexValues.foldl
    (fun acc v =>
      match parseInt v with
      | some n => if n > 0 then acc + 1 else acc
      | none => acc) 0

/-- C8: malformed sub-content is skipped locally and never aborts the
enclosing analyzer: a JSON-LD script whose content fails to parse
contributes no entry to the collected schema types (removing it leaves the
output unchanged), and a tabindex value that fails integer parsing
contributes nothing to the positive-tabindex count; both analyzers are
total functions that return a result on every input. -/
theorem malformed_subcontent_skipped
    (parseJson : String → Option JValue) (parseInt : String → Option Int)
    (xs ys : List ScriptTag) (bad : ScriptTag) (s : String)
    (hbad : bad.content = some s) (hfail : parseJson s = none)
    (txs tys : List String) (tv : String) (hfail2 : parseInt tv = none) :
    extract_schema_types parseJson (xs ++ bad :: ys)
        = extract_schema_types parseJson (xs ++ ys) ∧
    count_positive_tabindex parseInt (txs ++ tv :: tys)
        = count_positive_tabindex parseInt (txs ++ tys) := by
  constructor
  · unfold extract_schema_types
    rw [List.foldl_append, List.foldl_append, List.foldl_cons]
    by_cases hstr : s = ""
    · simp [hbad, hstr]
    · simp [hbad, hstr, hfail]
  · unfold count_positive_tabindex
    rw [List.foldl_append, List.foldl_append, List.foldl_cons]
    simp [hfail2]

/-- Witness for C8 at concrete inputs: a parse function that rejects the
malformed inputs, one bad JSON-LD script among two good-shaped ones, and a
non-numeric tabindex among numeric ones. -/
theorem malformed_subcontent_skipped_witness :
    extract_schema_types (fun _ => none)
        [⟨some "ok"⟩, ⟨some "not json"⟩, ⟨none⟩]
        = extract_schema_types (fun _ => none) [⟨some "ok"⟩, ⟨none⟩] ∧
    count_positive_tabindex (fun _ => none) ["1", "abc", "2"]
        = count_positive_tabindex (fun _ => none) ["1", "2"] :=
  malformed_subcontent_skipped (fun _ => none) (fun _ => none)
    [⟨some "ok"⟩] [⟨none⟩] ⟨some "not json"⟩ "not json" rfl rfl
    ["1"] ["2"] "abc" rfl

end DomAnalyzer
